import Mathlib

/-!
Shallow embedding of the detecta-multa backend proxy
(src/backend-server.js and src/server.js).

The two server files implement one HTTP route, `GET /multas`, that dispatches a
cleaned vehicle identifier to one of several portal adapters.  Each adapter runs a
network choreography and then normalizes the upstream response into a list of
canonical `ViolationRecord`s.  Here the pure decision logic of the source is
embedded directly: string scrubbing, `parseFloat`, JavaScript `||` chains,
cell-row and JSON-item normalizers, the sentinel and error classification of the
parse phases, the request-counted ANSV choreographies, the GeneXus padding and
ECB encryption helper, and the dispatcher.  Network transport and the cheerio DOM
library are the environment: their outputs (response bodies, extracted cell texts,
parsed JSON shapes) are the inputs of the embedded functions.
-/

namespace DetectaMulta

/-! ## JavaScript string semantics shared by both server files -/

/-- Lowercase a string character by character, as `String.prototype.toLowerCase`
does for the ASCII texts these adapters compare (`Char.toLower` only affects the
ASCII range; every comparison in the source uses the ASCII needle "pag" or an
already-lowercase sentinel phrase). -/
def jsToLowerCase (s : String) : String := ⟨s.data.map Char.toLower⟩

/-- Does the list start with the given pattern? -/
def listStarts : List Char → List Char → Bool
  | [], _ => true
  | _ :: _, [] => false
  | a :: as, b :: bs => a == b && listStarts as bs

/-- Does the pattern occur as a contiguous run anywhere in the list?  Embeds
`String.prototype.includes` and the fixed-text regular expressions of the source. -/
def listHasSub (p : List Char) : List Char → Bool
  | [] => listStarts p []
  | c :: cs => listStarts p (c :: cs) || listHasSub p cs

/-- `hay.includes(needle)` of JavaScript. -/
def hasSubstr (needle hay : String) : Bool := listHasSub needle.data hay.data

/-- Case-insensitive fixed-text test: embeds `/needle/i.test(hay)` for the
all-lowercase needles used by the adapters. -/
def hasSubstrCI (needle hay : String) : Bool := hasSubstr needle (jsToLowerCase hay)

/-- `text.toLowerCase().includes("pag")`, the shared paid-status test. -/
def containsPag (s : String) : Bool := hasSubstr "pag" (jsToLowerCase s)

/-- `s || null` for a JavaScript string expression: the empty string is falsy. -/
def strOrNull (s : String) : Option String := if s = "" then none else some s

/-- `x1 || x2 || ... || null` over possibly-absent string fields of an upstream
JSON object (`none` models an absent or null field, falsy just like `""`). -/
def jsChainOrNull : List (Option String) → Option String
  | [] => none
  | some s :: rest => if s = "" then jsChainOrNull rest else some s
  | none :: rest => jsChainOrNull rest

/-- `x1 || x2 || ... || "d"`: the same chain ending in a string default. -/
def jsChainD : List (Option String) → String → String
  | [], d => d
  | some s :: rest, d => if s = "" then jsChainD rest d else s
  | none :: rest, d => jsChainD rest d

/-- `cols[n]` defaulted as the source does with `(cols[n] || '')`: a missing cell
(JS `undefined`) behaves like the empty string in every `||` chain it enters. -/
def colD (cols : List String) (n : Nat) : String := cols.getD n ""

/-- `cols[n] || null`. -/
def colOrNull (cols : List String) (n : Nat) : Option String := strOrNull (colD cols n)

/-- `[a, b, ...].filter(Boolean).join(sep)`: drop absent and empty parts, join the rest. -/
def joinTruthy (sep : String) (parts : List (Option String)) : String :=
  String.intercalate sep ((parts.filterMap id).filter (fun s => s != ""))

/-! ## Monetary text scrubbing and `parseFloat` -/

/-- `.replace(/[^0-9.]/g, '')`. -/
def stripKeepDigitsDot (s : String) : String :=
  ⟨s.data.filter (fun c => c.isDigit || c == '.')⟩

/-- `.replace(/[^0-9.,]/g, '')`. -/
def stripKeepDigitsDotComma (s : String) : String :=
  ⟨s.data.filter (fun c => c.isDigit || c == '.' || c == ',')⟩

/-- `.replace(',', '.')`: with a string pattern, JavaScript replaces only the
first comma. -/
def replaceFirstComma : List Char → List Char
  | [] => []
  | c :: cs => if c == ',' then '.' :: cs else c :: replaceFirstComma cs

def replaceFirstCommaS (s : String) : String := ⟨replaceFirstComma s.data⟩

/-- The digit run at the front of the input: digit values and the rest. -/
def parseDigits : List Char → List Nat × List Char
  | [] => ([], [])
  | c :: cs =>
    if c.isDigit then
      let r := parseDigits cs
      ((c.toNat - 48) :: r.1, r.2)
    else ([], c :: cs)

def natOfDigits (ds : List Nat) : Nat := ds.foldl (fun a d => 10 * a + d) 0

def fracOfDigits (ds : List Nat) : ℚ := (natOfDigits ds : ℚ) / ((10 : ℚ) ^ ds.length)

/-- Exponent digits with a sign already consumed; `none` when no digit follows
(JavaScript then stops before the `e`). -/
def parseExpDigits (sign : Int) (t : List Char) : Option Int :=
  let p := parseDigits t
  if p.1.isEmpty then none else some (sign * (natOfDigits p.1 : Int))

/-- Optional exponent part of a decimal literal. -/
def parseExpPart : List Char → Option Int
  | 'e' :: '-' :: t => parseExpDigits (-1) t
  | 'e' :: '+' :: t => parseExpDigits 1 t
  | 'e' :: t => parseExpDigits 1 t
  | 'E' :: '-' :: t => parseExpDigits (-1) t
  | 'E' :: '+' :: t => parseExpDigits 1 t
  | 'E' :: t => parseExpDigits 1 t
  | _ => none

/-- `parseFloat` on the decimal strings this program produces: skip leading
whitespace, an optional sign, an optional integer digit run, an optional fraction
after one dot, an optional exponent; the result is the exact rational value of the
longest valid prefix, with `none` standing for `NaN` when no digit is found.
(`"Infinity"`, which no adapter ever feeds to `parseFloat`, is not modelled.) -/
def parseFloatQ (s : String) : Option ℚ :=
  let l := s.data.dropWhile Char.isWhitespace
  let signAndRest : ℚ × List Char :=
    match l with
    | '-' :: r => (-1, r)
    | '+' :: r => (1, r)
    | _ => (1, l)
  let (ints, l2) := parseDigits signAndRest.2
  let fracAndRest : List Nat × List Char :=
    match l2 with
    | '.' :: r => parseDigits r
    | _ => ([], l2)
  if ints.isEmpty && fracAndRest.1.isEmpty then none
  else
    let mant : ℚ :=
      signAndRest.1 * ((natOfDigits ints : ℚ) + fracOfDigits fracAndRest.1)
    match parseExpPart fracAndRest.2 with
    | some e => some (mant * (10 : ℚ) ^ e)
    | none => some mant

/-- `expr || null` on a number: `0`, `-0` and `NaN` are falsy, so a zero or
unparsable amount becomes `null`. -/
def numOrNull (q : Option ℚ) : Option ℚ :=
  match q with
  | none => none
  | some x => if x = 0 then none else some x

/-- `parseFloat(text.replace(/[^0-9.]/g, '')) || null` — the amount policy of the
ANSV, Santa Fe, Posadas and Corrientes table rows, and of the server.js adapters. -/
def importeStripDot (s : String) : Option ℚ :=
  numOrNull (parseFloatQ (stripKeepDigitsDot s))

/-- `parseFloat(text.replace(/[^0-9.,]/g, '').replace(',', '.')) || null` — the
amount policy of the CABA cards and of the Rosario, Santa Rosa and Mendoza rows. -/
def importeStripDotComma (s : String) : Option ℚ :=
  numOrNull (parseFloatQ (replaceFirstCommaS (stripKeepDigitsDotComma s)))

/-- `parseFloat(chain) || null` on a raw upstream value — the JSON adapters. -/
def importeRaw (s : String) : Option ℚ := numOrNull (parseFloatQ s)

/-! ## The canonical record -/

/-- The canonical output record every adapter produces. -/
structure ViolationRecord where
  acta : Option String
  fecha : Option String
  descripcion : Option String
  lugar : Option String
  importe : Option ℚ
  estado : String
  jurisdiccion : String
deriving DecidableEq

/-! ## Per-adapter record normalizers

Each normalizer embeds the object literal an adapter pushes for one upstream
item.  Table adapters receive the row's trimmed cell texts as `cols`; JSON
adapters receive a structure whose `Option String` fields model the object
returned by the portal (`none` is an absent/null field; a numeric upstream value
is modelled by its decimal rendering, which is what `parseFloat` and `||` see on
the strings these portals actually return). -/

/-- One item of the JSON fallback shape of fetchANSV (both server files). -/
structure AnsvJsonItem where
  nroActa : Option String
  acta : Option String
  fecha : Option String
  descripcion : Option String
  motivo : Option String
  lugar : Option String
  direccion : Option String
  importe : Option String
  monto : Option String
  estado : Option String
  jurisdiccion : Option String
deriving DecidableEq

/-- backend-server.js fetchANSV, table branch (lines 119-131): one row of
`table.table-infracciones tbody tr, table tbody tr`, kept when it has at least
3 cells.  server.js lines 63-75 are identical. -/
def ansvRowNormalize (cols : List String) : ViolationRecord :=
  { acta := colOrNull cols 0
    fecha := colOrNull cols 1
    descripcion := colOrNull cols 2
    lugar := colOrNull cols 3
    importe := importeStripDot (colD cols 4)
    estado := if containsPag (colD cols 5) then "pagada" else "pendiente"
    jurisdiccion := jsChainD [some (colD cols 6)] "Nacional" }

/-- backend-server.js fetchANSV, JSON fallback branch (lines 139-147); server.js
lines 82-90 are identical.  Note that `estado` is the lowercased upstream status
passed through (`(i.estado||'pendiente').toLowerCase()`), not the pag-substring
classification used everywhere else. -/
def ansvJsonNormalize (i : AnsvJsonItem) : ViolationRecord :=
  { acta := jsChainOrNull [i.nroActa, i.acta]
    fecha := jsChainOrNull [i.fecha]
    descripcion := jsChainOrNull [i.descripcion, i.motivo]
    lugar := jsChainOrNull [i.lugar, i.direccion]
    importe := importeRaw (jsChainD [i.importe, i.monto] "0")
    estado := jsToLowerCase (jsChainD [i.estado] "pendiente")
    jurisdiccion := jsChainD [i.jurisdiccion] "Nacional" }

/-- One item of the PBA REST response. -/
structure PbaItem where
  nroActa : Option String
  numeroCausa : Option String
  acta : Option String
  fechaInfraccion : Option String
  fecha : Option String
  descripcionFalta : Option String
  descripcion : Option String
  articulo : Option String
  lugar : Option String
  juzgado : Option String
  importe : Option String
  monto : Option String
  deuda : Option String
  estado : Option String
  jurisdiccion : Option String
deriving DecidableEq

/-- backend-server.js fetchPBA (lines 193-201); server.js lines 114-122 are
identical. -/
def pbaNormalize (i : PbaItem) : ViolationRecord :=
  { acta := jsChainOrNull [i.nroActa, i.numeroCausa, i.acta]
    fecha := jsChainOrNull [i.fechaInfraccion, i.fecha]
    descripcion := jsChainOrNull [i.descripcionFalta, i.descripcion, i.articulo]
    lugar := jsChainOrNull [i.lugar, i.juzgado]
    importe := importeRaw (jsChainD [i.importe, i.monto, i.deuda] "0")
    estado := if containsPag (jsChainD [i.estado] "pendiente") then "pagada" else "pendiente"
    jurisdiccion := jsChainD [i.juzgado, i.jurisdiccion] "Provincia de Buenos Aires" }

/-- One `.card-access` card of the CABA results page: the trimmed text of each
selector the adapter queries (cheerio yields `""` when a selector matches
nothing), plus the card's full text. -/
structure CabaCard where
  actaSel : String
  h6 : String
  fechaSel : String
  descripcionSel : String
  lugarSel : String
  importeSel : String
  cardText : String
deriving DecidableEq

/-- backend-server.js fetchCABA (lines 249-262): `getText(sel)` is
`text.trim() || null`, embedded as `strOrNull`. -/
def cabaCardNormalize (c : CabaCard) : ViolationRecord :=
  { acta := jsChainOrNull [strOrNull c.actaSel, strOrNull c.h6]
    fecha := strOrNull c.fechaSel
    descripcion := strOrNull c.descripcionSel
    lugar := strOrNull c.lugarSel
    importe := importeStripDotComma c.importeSel
    estado := if containsPag c.cardText then "pagada" else "pendiente"
    jurisdiccion := "CABA" }

/-- server.js fetchCABA (lines 151-164): plain table rows, estado always
pendiente. -/
def cabaServerRowNormalize (cols : List String) : ViolationRecord :=
  { acta := colOrNull cols 0
    fecha := colOrNull cols 1
    descripcion := colOrNull cols 2
    lugar := colOrNull cols 3
    importe := importeStripDot (colD cols 4)
    estado := "pendiente"
    jurisdiccion := "CABA" }

/-- fetchSantaFe (backend-server.js lines 276-289; server.js lines 178-191
identical): estado is always pendiente, the source has no status column. -/
def santafeRowNormalize (cols : List String) : ViolationRecord :=
  { acta := colOrNull cols 0
    fecha := colOrNull cols 1
    descripcion := colOrNull cols 2
    lugar := colOrNull cols 3
    importe := importeStripDot (colD cols 4)
    estado := "pendiente"
    jurisdiccion := "Santa Fe" }

/-- backend-server.js fetchPosadas (lines 315-328): the estado test reads the
whole body text, not a cell. -/
def posadasRowNormalize (bodyText : String) (cols : List String) : ViolationRecord :=
  { acta := colOrNull cols 0
    fecha := colOrNull cols 1
    descripcion := colOrNull cols 2
    lugar := colOrNull cols 3
    importe := importeStripDot (colD cols 4)
    estado := if containsPag bodyText then "pagada" else "pendiente"
    jurisdiccion := "Municipio de Posadas" }

/-- backend-server.js fetchCorrientes (lines 374-387). -/
def corrientesRowNormalize (cols : List String) : ViolationRecord :=
  { acta := colOrNull cols 0
    fecha := colOrNull cols 1
    descripcion := colOrNull cols 2
    lugar := colOrNull cols 3
    importe := importeStripDot (colD cols 4)
    estado := if containsPag (colD cols 5) then "pagada" else "pendiente"
    jurisdiccion := "Corrientes" }

/-- One item of the Monitoreo Vial REST shape shared by the Entre Ríos and
Misiones adapters (their map callbacks are character-identical except for the
jurisdiccion default). -/
structure MvItem where
  nroActa : Option String
  acta : Option String
  numero : Option String
  fecha : Option String
  fechaInfraccion : Option String
  descripcion : Option String
  motivo : Option String
  articulo : Option String
  lugar : Option String
  direccion : Option String
  importe : Option String
  monto : Option String
  deuda : Option String
  estado : Option String
  jurisdiccion : Option String
deriving DecidableEq

/-- Shared body of the Entre Ríos / Misiones map callback. -/
def mvNormalize (defaultJur : String) (i : MvItem) : ViolationRecord :=
  { acta := jsChainOrNull [i.nroActa, i.acta, i.numero]
    fecha := jsChainOrNull [i.fecha, i.fechaInfraccion]
    descripcion := jsChainOrNull [i.descripcion, i.motivo, i.articulo]
    lugar := jsChainOrNull [i.lugar, i.direccion]
    importe := importeRaw (jsChainD [i.importe, i.monto, i.deuda] "0")
    estado := if containsPag (jsChainD [i.estado] "pendiente") then "pagada" else "pendiente"
    jurisdiccion := jsChainD [i.jurisdiccion] defaultJur }

/-- backend-server.js fetchEntreRios (lines 424-432). -/
def entreRiosNormalize (i : MvItem) : ViolationRecord := mvNormalize "Entre Ríos" i

/-- backend-server.js fetchMisiones (lines 467-475). -/
def misionesNormalize (i : MvItem) : ViolationRecord := mvNormalize "Misiones" i

/-- One item of the Chaco `fotomultas` array. -/
structure ChacoFotoItem where
  nroActa : Option String
  id : Option String
  fechaInfraccion : Option String
  fechaGeneracion : Option String
  descripcionLey : Option String
  articulo : Option String
  tipo : Option String
  lugar : Option String
  juzgado : Option String
  importe : Option String
  importe1vto : Option String
  estado : Option String
deriving DecidableEq

/-- backend-server.js fetchChaco, fotomultas branch (lines 492-500).
`importe1vto` embeds the upstream field `importe_1vto`. -/
def chacoFotoNormalize (i : ChacoFotoItem) : ViolationRecord :=
  { acta := jsChainOrNull [i.nroActa, i.id]
    fecha := jsChainOrNull [i.fechaInfraccion, i.fechaGeneracion]
    descripcion := jsChainOrNull [i.descripcionLey, i.articulo, i.tipo]
    lugar := jsChainOrNull [i.lugar, i.juzgado]
    importe := importeRaw (jsChainD [i.importe, i.importe1vto] "0")
    estado := if containsPag (jsChainD [i.estado] "pendiente") then "pagada" else "pendiente"
    jurisdiccion := "Chaco (Fotomulta)" }

/-- One item of the Chaco `caminera` array (`fecha1vto` and `importe1vto` embed
the upstream fields `fecha_1vto` and `importe_1vto`). -/
structure ChacoCamItem where
  nroActa : Option String
  fecha1vto : Option String
  tipo : Option String
  importe1vto : Option String
  estado : Option String
deriving DecidableEq

/-- backend-server.js fetchChaco, caminera branch (lines 502-510). -/
def chacoCamNormalize (i : ChacoCamItem) : ViolationRecord :=
  { acta := jsChainOrNull [i.nroActa]
    fecha := jsChainOrNull [i.fecha1vto]
    descripcion := jsChainOrNull [i.tipo]
    lugar := none
    importe := importeRaw (jsChainD [i.importe1vto] "0")
    estado := if containsPag (jsChainD [i.estado] "pendiente") then "pagada" else "pendiente"
    jurisdiccion := "Chaco (Caminera)" }

/-- backend-server.js fetchRosario (lines 576-585). -/
def rosarioRowNormalize (cols : List String) : ViolationRecord :=
  { acta := colOrNull cols 0
    fecha := colOrNull cols 1
    descripcion := colOrNull cols 2
    lugar := colOrNull cols 3
    importe := importeStripDotComma (colD cols 4)
    estado := if containsPag (colD cols 5) then "pagada" else "pendiente"
    jurisdiccion := "Rosario" }

/-- One item of the Neuquén REST `data` array (`nroActaU` and `fechaInfraccionU`
embed the upstream snake-case fields `nro_acta` and `fecha_infraccion`). -/
structure NeuquenItem where
  nroActaU : Option String
  acta : Option String
  id : Option String
  fecha : Option String
  fechaInfraccionU : Option String
  descripcion : Option String
  motivo : Option String
  tipo : Option String
  lugar : Option String
  direccion : Option String
  importe : Option String
  monto : Option String
  estado : Option String
deriving DecidableEq

/-- backend-server.js fetchNeuquen (lines 619-627). -/
def neuquenNormalize (i : NeuquenItem) : ViolationRecord :=
  { acta := jsChainOrNull [i.nroActaU, i.acta, i.id]
    fecha := jsChainOrNull [i.fecha, i.fechaInfraccionU]
    descripcion := jsChainOrNull [i.descripcion, i.motivo, i.tipo]
    lugar := jsChainOrNull [i.lugar, i.direccion]
    importe := importeRaw (jsChainD [i.importe, i.monto] "0")
    estado := if containsPag (jsChainD [i.estado] "pendiente") then "pagada" else "pendiente"
    jurisdiccion := "Neuquén Capital" }

/-- backend-server.js fetchSantaRosa (lines 664-676): the estado source falls
back from cell 5 to cell 3. -/
def santaRosaRowNormalize (cols : List String) : ViolationRecord :=
  { acta := colOrNull cols 0
    fecha := colOrNull cols 1
    descripcion := colOrNull cols 2
    lugar := colOrNull cols 3
    importe := importeStripDotComma (colD cols 4)
    estado :=
      if containsPag (jsChainD [some (colD cols 5), some (colD cols 3)] "")
      then "pagada" else "pendiente"
    jurisdiccion := "Santa Rosa (La Pampa)" }

/-- backend-server.js fetchMendoza (lines 768-781): wide APEX report rows,
amount from cell 8 falling back to cell 7, estado from cell 14. -/
def mendozaRowNormalize (cols : List String) : ViolationRecord :=
  { acta := jsChainOrNull [some (colD cols 9), some (colD cols 3)]
    fecha := colOrNull cols 1
    descripcion := colOrNull cols 11
    lugar := none
    importe := importeStripDotComma (jsChainD [some (colD cols 8), some (colD cols 7)] "")
    estado := if containsPag (colD cols 14) then "pagada" else "pendiente"
    jurisdiccion := "Ciudad de Mendoza" }

/-- One item of the Mendoza Caminera structured grid `W0077Sdtdetalledeuda`. -/
structure CamSdtItem where
  obnId : Option String
  concepto : Option String
  subConcepto : Option String
  vencimiento : Option String
  importeTotal : Option String
  tipo : Option String
deriving DecidableEq

/-- backend-server.js fetchMendozaCaminera, structured-grid branch
(lines 894-904): `titular` is the `AV9Titular` value of the web component. -/
def camSdtNormalize (titular : String) (i : CamSdtItem) : ViolationRecord :=
  { acta := jsChainOrNull [i.obnId, i.concepto]
    fecha := jsChainOrNull [i.vencimiento]
    descripcion := strOrNull (joinTruthy " - " [i.concepto, i.subConcepto])
    lugar := none
    importe := importeRaw (jsChainD [i.importeTotal] "0")
    estado := if containsPag (jsChainD [i.tipo] "pendiente") then "pagada" else "pendiente"
    jurisdiccion := "Mendoza Caminera" ++ (if titular = "" then "" else " · " ++ titular) }

/-- One item of the Mendoza Caminera `AV14objetos` / `W0077vOBJETOS` JSON
strings. -/
structure CamObjItem where
  obnIdU : Option String
  tasa : Option String
  ocvfechavto : Option String
  concepto : Option String
  subconcepto : Option String
  cuotaDeudaTotal : Option String
  saldoCap : Option String
  persona : Option String
deriving DecidableEq

/-- backend-server.js fetchMendozaCaminera, `AV14objetos` fallback
(lines 909-919): `obnIdU` embeds the upstream field `ObnId`. -/
def camObjNormalize (titular : String) (i : CamObjItem) : ViolationRecord :=
  { acta := jsChainOrNull [i.obnIdU, i.tasa]
    fecha := jsChainOrNull [i.ocvfechavto]
    descripcion := jsChainOrNull [strOrNull (joinTruthy " - " [i.concepto, i.subconcepto]), i.tasa]
    lugar := none
    importe := importeRaw (jsChainD [i.cuotaDeudaTotal, i.saldoCap] "0")
    estado := "pendiente"
    jurisdiccion :=
      "Mendoza Caminera" ++
        (match i.persona with
         | some p => if p = "" then (if titular = "" then "" else " · " ++ titular)
                     else " · " ++ p
         | none => if titular = "" then "" else " · " ++ titular) }

/-- backend-server.js fetchMendozaCaminera, `gxHiddens.W0077vOBJETOS` backup
(lines 927-937): like the objetos fallback but with a fixed jurisdiccion. -/
def camHiddenNormalize (i : CamObjItem) : ViolationRecord :=
  { acta := jsChainOrNull [i.obnIdU, i.tasa]
    fecha := jsChainOrNull [i.ocvfechavto]
    descripcion := jsChainOrNull [strOrNull (joinTruthy " - " [i.concepto, i.subconcepto]), i.tasa]
    lugar := none
    importe := importeRaw (jsChainD [i.cuotaDeudaTotal, i.saldoCap] "0")
    estado := "pendiente"
    jurisdiccion := "Mendoza Caminera" }

/-- One item of the Salta `multas` array. -/
structure SaltaItem where
  numeroObligacionImpuesto : Option String
  acta : Option String
  fechaInfraccion : Option String
  descripcion : Option String
  articulo : Option String
  calle : Option String
  altura : Option String
  importe : Option String
  monto : Option String
  estadoPlanPago : Option String
  estado : Option String
  titular : Option String
deriving DecidableEq

/-- backend-server.js fetchSalta (lines 976-984).  `isoDate` stands for
`s => new Date(s).toISOString().slice(0,10)` (the external Date library; on a
valid upstream date it yields a ten-character `YYYY-MM-DD`).  The acta field is
`String(i.numeroObligacionImpuesto || i.acta || '')`: always a string, the empty
string when the whole chain is falsy. -/
def saltaNormalize (isoDate : String → String) (i : SaltaItem) : ViolationRecord :=
  { acta := some (jsChainD [i.numeroObligacionImpuesto, i.acta] "")
    fecha :=
      match i.fechaInfraccion with
      | some s => if s = "" then none else some (isoDate s)
      | none => none
    descripcion := strOrNull (joinTruthy " – " [i.descripcion, i.articulo])
    lugar :=
      strOrNull (joinTruthy " "
        [i.calle,
         match i.altura with
         | some a => if a = "" then none else some ("N° " ++ a)
         | none => none])
    importe := importeRaw (jsChainD [i.importe, i.monto] "0")
    estado :=
      if containsPag (jsChainD [i.estadoPlanPago, i.estado] "pendiente")
      then "pagada" else "pendiente"
    jurisdiccion := "Salta Capital" ++ (match i.titular with
      | some t => if t = "" then "" else " · " ++ t
      | none => "") }

/-- One obligation of the Córdoba nested response. -/
structure CordobaOb where
  fechaLabrado : Option String
  descripcion : Option String
  saldoTotal : Option String
  estado : Option String
deriving DecidableEq

/-- backend-server.js fetchCordoba, innermost push (lines 1005-1013):
`referencia1` comes from the enclosing `objeto`, `titular` is the trimmed
`nombre apellido` of the enclosing `contribuyente`. -/
def cordobaNormalize (referencia1 : Option String) (titular : String)
    (ob : CordobaOb) : ViolationRecord :=
  { acta := jsChainOrNull [referencia1]
    fecha := jsChainOrNull [ob.fechaLabrado]
    descripcion := jsChainOrNull [ob.descripcion]
    lugar := none
    importe := importeRaw (jsChainD [ob.saldoTotal] "0")
    estado := if containsPag (jsChainD [ob.estado] "") then "pagada" else "pendiente"
    jurisdiccion := "Córdoba Caminera" ++ (if titular = "" then "" else " · " ++ titular) }

/-! ## Parse phases: sentinel classification and row extraction

The cheerio row selectors are the environment: `rows` is the list of matched
table rows, each given as its trimmed `td` texts in source order, and `bodyText`
is `$('body').text()` of the response. -/

/-- backend-server.js fetchANSV table branch (lines 119-131): every matched row
with at least 3 cells becomes a record (no header skip in this adapter). -/
def ansvParseRows (rows : List (List String)) : List ViolationRecord :=
  (rows.filter (fun c => 3 ≤ c.length)).map ansvRowNormalize

/-- The parsed JSON body of the ANSV fallback: the three optional list fields
tried by `json.infracciones || json.data || json.items || []`. -/
structure AnsvJson where
  infracciones : Option (List AnsvJsonItem)
  data : Option (List AnsvJsonItem)
  items : Option (List AnsvJsonItem)
deriving DecidableEq

/-- `json.infracciones || json.data || json.items || []` (an array, even empty,
is truthy, so the first present field wins). -/
def ansvGetList (j : AnsvJson) : List AnsvJsonItem :=
  match j.infracciones with
  | some l => l
  | none =>
    match j.data with
    | some l => l
    | none =>
      match j.items with
      | some l => l
      | none => []

/-- backend-server.js fetchANSV parse phase (lines 116-151): table rows first;
if none and the body contains a brace, try the JSON shape (`json` is the outcome
of `JSON.parse(resText)`, `none` when it throws — the catch swallows the error
and the adapter concludes empty). -/
def ansvParsePhase (rows : List (List String)) (resText : String)
    (json : Option AnsvJson) : List ViolationRecord :=
  let infracciones := ansvParseRows rows
  if infracciones.length = 0 && hasSubstr "\x7b" resText then
    match json with
    | some j => infracciones ++ (ansvGetList j).map ansvJsonNormalize
    | none => infracciones
  else infracciones

/-- backend-server.js fetchPosadas parse phase (lines 307-330): the
`/no registra/i` sentinel on the body text is checked before the row loop, so a
sentinel body yields no records no matter what table markup is present.  The row
loop skips the first matched row and every row with fewer than 2 cells. -/
def posadasParse (bodyText : String) (rows : List (List String)) :
    List ViolationRecord :=
  if hasSubstrCI "no registra" bodyText then []
  else
    ((rows.drop 1).filter (fun c => 2 ≤ c.length)).map (posadasRowNormalize bodyText)

/-- backend-server.js fetchRosario classification (lines 561-591):
`hasErrSummary`/`errText` model the `.govuk-error-summary` selector.  The rows
are parsed first; the `/no registra|sin infracciones|no pose/i` sentinel is only
consulted afterwards, and only when zero rows parsed. -/
def rosarioParse (bodyText : String) (hasErrSummary : Bool) (errText : String)
    (rows : List (List String)) : Except String (List ViolationRecord) :=
  if hasErrSummary then
    Except.error ("Rosario devolvió error: " ++ errText)
  else
    let infracciones := ((rows.drop 1).filter (fun c => 2 ≤ c.length)).map rosarioRowNormalize
    if (hasSubstrCI "no registra" bodyText || hasSubstrCI "sin infracciones" bodyText
          || hasSubstrCI "no pose" bodyText) && infracciones.isEmpty then
      Except.ok []
    else
      Except.ok infracciones

/-! ## The ANSV choreographies, with request counting -/

/-- The regex class `[A-Z]`. -/
def isUpperAZ (c : Char) : Bool := 'A' ≤ c && c ≤ 'Z'

/-- `/^[A-Z]{3}\d{3}$/.test s` — the old fixed 6-character plate layout. -/
def isOldFormat (s : String) : Bool :=
  match s.data with
  | [a, b, c, d, e, f] =>
    isUpperAZ a && isUpperAZ b && isUpperAZ c && d.isDigit && e.isDigit && f.isDigit
  | _ => false

/-- `/^[A-Z]{2}\d{3}[A-Z]{2}$/.test s` — the 7-character Mercosur layout. -/
def isMercFormat (s : String) : Bool :=
  match s.data with
  | [a, b, c, d, e, f, g] =>
    isUpperAZ a && isUpperAZ b && c.isDigit && d.isDigit && e.isDigit
      && isUpperAZ f && isUpperAZ g
  | _ => false

/-- The unsupported-format message fetchANSV throws (backend-server.js line 56). -/
def ansvUnsupportedMsg : String :=
  "El portal ANSV/SINAI solo admite patentes en formato antiguo (ABC123). El formato Mercosur (AB123CD) no está soportado."

/-- The suffix after the first occurrence of `marker`, if any. -/
def listAfterFirst (marker : List Char) : List Char → Option (List Char)
  | [] => if listStarts marker [] then some [] else none
  | c :: cs =>
    if listStarts marker (c :: cs) then some ((c :: cs).drop marker.length)
    else listAfterFirst marker cs

/-- `html.match(/data-sitekey="([^"]+)"/)`: the capture of the first occurrence
with a nonempty value. -/
def matchSiteKey (html : String) : Option String :=
  match listAfterFirst ("data-sitekey=\"".data) html.data with
  | none => none
  | some rest =>
    let key := rest.takeWhile (fun c => c != '"')
    if key.isEmpty then none else some ⟨key⟩

/-- The network/DOM environment of backend-server.js fetchANSV: the home page
body, the outcome of the external captcha solve, and the POST response (its
parsed table rows, its raw text, and the outcome of `JSON.parse` on it).  The
hidden WebForms fields extracted from the home page only feed the POST payload,
never the result, so they are not part of the model. -/
structure AnsvNetEnv where
  homeBody : String
  captchaOutcome : Except String String
  postRows : List (List String)
  postBody : String
  postJson : Option AnsvJson

/-- backend-server.js fetchANSV (lines 53-152), paired with the number of
requests issued through the shared axios client.  The format precondition is
checked before the first request; the home GET is request 1 and the WebForms
POST is request 2.  (A transport failure would abort after its request is
already issued, so it cannot lower these counts.) -/
def fetchANSVBackend (dominio : String) (env : AnsvNetEnv) :
    Except String (List ViolationRecord) × Nat :=
  if !(isOldFormat dominio) then
    (Except.error ansvUnsupportedMsg, 0)
  else
    match matchSiteKey env.homeBody with
    | none =>
      (Except.error "No se encontró el site key de reCAPTCHA en el portal ANSV/SINAI.", 1)
    | some _ =>
      match env.captchaOutcome with
      | Except.error e => (Except.error e, 1)
      | Except.ok _ =>
        (Except.ok (ansvParsePhase env.postRows env.postBody env.postJson), 2)

/-- The environment of server.js fetchANSV: the home page body and its parsed
table rows. -/
structure ServerAnsvEnv where
  homeBody : String
  homeRows : List (List String)

/-- server.js fetchANSV (lines 44-95), paired with its request count.  There is
no plate-format check: the home GET (request 1) happens unconditionally, and a
page mentioning reCAPTCHA makes the adapter throw its reCAPTCHA message.  When
the table yields zero rows, line 78 evaluates `res.data` — but no variable `res`
is in scope in this function (the response is named `home`), so JavaScript
raises `ReferenceError: res is not defined` before the JSON fallback can run. -/
def fetchANSVServer (dominio : String) (env : ServerAnsvEnv) :
    Except String (List ViolationRecord) × Nat :=
  let _ := dominio
  if hasSubstr "g-recaptcha" env.homeBody
      || hasSubstr "recaptcha" (jsToLowerCase env.homeBody) then
    (Except.error "El portal ANSV/SINAI requiere reCAPTCHA; no se puede consultar automáticamente desde este backend. Probá con fuente=pba/caba/santafe.", 1)
  else
    let infracciones := (env.homeRows.filter (fun c => 3 ≤ c.length)).map ansvRowNormalize
    if infracciones.isEmpty then
      (Except.error "ReferenceError: res is not defined", 1)
    else
      (Except.ok infracciones, 1)

/-! ## Dispatcher and route -/

/-- The adapters of backend-server.js (server.js knows only the first four). -/
inductive AdapterId where
  | ansv | pba | caba | santafe | posadas | corrientes | entrerios | misiones
  | chaco | rosario | neuquen | santarosa | mendoza | cordoba | mendozacaminera
  | salta
deriving DecidableEq

/-- The `switch (fuente)` of backend-server.js `app.get('/multas')`
(lines 1033-1051): the `ansv` case and the `default` case both dispatch
fetchANSV. -/
def selectAdapter (fuente : String) : AdapterId :=
  if fuente = "pba" then .pba
  else if fuente = "caba" then .caba
  else if fuente = "santafe" then .santafe
  else if fuente = "posadas" then .posadas
  else if fuente = "corrientes" then .corrientes
  else if fuente = "entrerios" then .entrerios
  else if fuente = "misiones" then .misiones
  else if fuente = "chaco" then .chaco
  else if fuente = "rosario" then .rosario
  else if fuente = "neuquen" then .neuquen
  else if fuente = "santarosa" then .santarosa
  else if fuente = "mendoza" then .mendoza
  else if fuente = "cordoba" then .cordoba
  else if fuente = "mendozacaminera" then .mendozacaminera
  else if fuente = "salta" then .salta
  else .ansv

/-- The `switch (fuente)` of server.js (lines 208-214), same fallback. -/
def selectAdapterServer (fuente : String) : AdapterId :=
  if fuente = "pba" then .pba
  else if fuente = "caba" then .caba
  else if fuente = "santafe" then .santafe
  else .ansv

/-- `dominio.replace(/\s/g, '').toUpperCase()` (backend-server.js line 1027). -/
def cleanDominio (s : String) : String :=
  ⟨(s.data.filter (fun c => !c.isWhitespace)).map Char.toUpper⟩

/-- What the `/multas` route can answer: HTTP 400, HTTP 200 with the result
envelope, or HTTP 502 with the error envelope. -/
inductive RouteResponse where
  | badRequest (error : String)
  | ok (dominio : String) (fuente : String) (infracciones : List ViolationRecord)
  | badGateway (error : String)
deriving DecidableEq

/-- backend-server.js `app.get('/multas')` (lines 1022-1057).  `run` is the
invocation of the selected adapter on the cleaned identifier, abstracting its
network choreography; an adapter that throws is an `Except.error` carrying
`err.message`.  Every such failure is caught by the route's try/catch and mapped
to a single 502 envelope naming the `fuente` and the message. -/
def handleMultas (run : AdapterId → String → Except String (List ViolationRecord))
    (dominioQ fuenteQ : Option String) : RouteResponse :=
  let fuente := match fuenteQ with
    | some f => f
    | none => "ansv"
  match dominioQ with
  | none => RouteResponse.badRequest "Falta el parámetro dominio"
  | some dominio =>
    if dominio = "" then RouteResponse.badRequest "Falta el parámetro dominio"
    else
      let clean := cleanDominio dominio
      if !(isOldFormat clean || isMercFormat clean) then
        RouteResponse.badRequest "Dominio inválido. Usar ABC123 o AB123CD"
      else
        match run (selectAdapter fuente) clean with
        | Except.ok infracciones => RouteResponse.ok clean fuente infracciones
        | Except.error msg =>
          RouteResponse.badGateway ("Error al consultar " ++ fuente ++ ": " ++ msg)

/-! ## The GeneXus symmetric codec (gxEncrypt, backend-server.js lines 800-808) -/

/-- `Buffer.from(plaintext, 'ascii')`: each char code masked to one byte. -/
def asciiBytes (s : String) : List Nat := s.data.map (fun c => c.toNat % 256)

/-- `Math.ceil(len / 16) * 16` — the padded length (exact for these sizes). -/
def gxPadLen (n : Nat) : Nat := ((n + 15) / 16) * 16

/-- `Buffer.alloc(Math.ceil(bytes.length / 16) * 16, 0)` followed by
`bytes.copy(padded)`: position `i` holds the plaintext byte when in range and
the zero fill otherwise. -/
def gxPad (bytes : List Nat) : List Nat :=
  (List.range (gxPadLen bytes.length)).map (fun i => bytes.getD i 0)

/-- Split into successive 16-byte blocks; the fuel argument (instantiated with
the list length) only drives the recursion. -/
def chunksAux : Nat → List Nat → List (List Nat)
  | 0, _ => []
  | fuel + 1, l => if l.isEmpty then [] else l.take 16 :: chunksAux fuel (l.drop 16)

def chunks16 (l : List Nat) : List (List Nat) := chunksAux l.length l

/-- ECB with `setAutoPadding(false)`: the block cipher `E` (the external
`aes-128-ecb` primitive, a permutation of 16-byte blocks) is applied to each
block independently — no chaining, no IV.  `gxPad` guarantees the input is
block-aligned. -/
def ecbEncrypt (E : List Nat → List Nat) (l : List Nat) : List Nat :=
  ((chunks16 l).map E).flatten

def hexDigit (n : Nat) : Char := if n < 10 then Char.ofNat (48 + n) else Char.ofNat (87 + n)

def byteToHex (b : Nat) : List Char := [hexDigit (b / 16 % 16), hexDigit (b % 16)]

/-- `.toString('hex')`. -/
def toHexStr (bs : List Nat) : String := ⟨(bs.map byteToHex).flatten⟩

/-- backend-server.js gxEncrypt (lines 800-808), with the AES block primitive
abstracted as `E`: zero-pad the ascii bytes to the next 16-byte boundary,
encrypt block by block in ECB mode, render as hex. -/
def gxEncrypt (E : List Nat → List Nat) (plaintext : String) : String :=
  toHexStr (ecbEncrypt E (gxPad (asciiBytes plaintext)))

/-! ## Properties under examination -/

/-- The specified status policy relative to a source status text: the estado is
one of the two enum values, and it is pagada exactly when the text contains a
case-insensitive "pag". -/
def estadoFollowsPolicy (e : String) (src : String) : Prop :=
  (e = "pagada" ∨ e = "pendiente") ∧ (e = "pagada" ↔ containsPag src = true)

/-- The importe invariant: null or a nonzero number. -/
def importeOk (o : Option ℚ) : Prop := o = none ∨ ∃ q, o = some q ∧ q ≠ 0

/-- The null-never-empty invariant of one record: no optional field holds the
empty string, and jurisdiccion is nonempty. -/
def recordNoEmpty (r : ViolationRecord) : Prop :=
  r.acta ≠ some "" ∧ r.fecha ≠ some "" ∧ r.descripcion ≠ some "" ∧
    r.lugar ≠ some "" ∧ r.jurisdiccion ≠ ""

/-- The same invariant minus the acta field (fetchSalta breaks it there). -/
def recordNoEmptyButActa (r : ViolationRecord) : Prop :=
  r.fecha ≠ some "" ∧ r.descripcion ≠ some "" ∧ r.lugar ≠ some "" ∧
    r.jurisdiccion ≠ ""

/-! # Theorems -/

/-! ## Helper lemmas -/

theorem numOrNull_spec (o : Option ℚ) : importeOk (numOrNull o) := by
  unfold importeOk numOrNull
  match o with
  | none => exact Or.inl rfl
  | some x =>
    by_cases h : x = 0
    · exact Or.inl (by simp [h])
    · exact Or.inr ⟨x, by simp [h], h⟩

theorem strOrNull_ne (s : String) : strOrNull s ≠ some "" := by
  unfold strOrNull
  by_cases h : s = "" <;> simp [h]

theorem colOrNull_ne (cols : List String) (n : Nat) : colOrNull cols n ≠ some "" :=
  strOrNull_ne _

theorem jsChainOrNull_ne (xs : List (Option String)) : jsChainOrNull xs ≠ some "" := by
  induction xs with
  | nil => simp [jsChainOrNull]
  | cons a rest ih =>
    cases a with
    | none => simpa [jsChainOrNull] using ih
    | some s =>
      by_cases h : s = ""
      · simpa [jsChainOrNull, h] using ih
      · simp [jsChainOrNull, h]

theorem jsChainD_ne (xs : List (Option String)) (d : String) (hd : d ≠ "") :
    jsChainD xs d ≠ "" := by
  induction xs with
  | nil => simpa [jsChainD] using hd
  | cons a rest ih =>
    cases a with
    | none => simpa [jsChainD] using ih
    | some s =>
      by_cases h : s = ""
      · simpa [jsChainD, h] using ih
      · simp [jsChainD, h]

theorem data_append_eq (s t : String) : (s ++ t).data = s.data ++ t.data := by
  cases s; cases t; rfl

theorem append_ne_empty (s t : String) (h : s ≠ "") : s ++ t ≠ "" := by
  intro hc
  have hd := congrArg String.data hc
  rw [data_append_eq] at hd
  have h0 : s.data = [] := (List.append_eq_nil.mp hd).1
  apply h
  cases s
  simp only [String.data] at h0
  subst h0
  rfl

theorem estado_policy_ite (s : String) :
    estadoFollowsPolicy (if containsPag s then "pagada" else "pendiente") s := by
  unfold estadoFollowsPolicy
  cases h : containsPag s <;> simp [h]

theorem estado_policy_pendiente : estadoFollowsPolicy "pendiente" "" := by
  unfold estadoFollowsPolicy
  decide

theorem none_ne_some_empty : (none : Option String) ≠ some "" := by decide

/-! ## Claim C10 -/

/-- Claim C10 (confirmed): in every ViolationRecord produced by any of the
normalizers of the two server files, importe is either null or a nonzero
number — every adapter computes importe as `parseFloat(...) || null`, so an
upstream amount parsing to exactly 0 (and an unparsable one) becomes null. -/
theorem claim10_importe_nonzero :
    (∀ cols, importeOk (ansvRowNormalize cols).importe)
  ∧ (∀ i, importeOk (ansvJsonNormalize i).importe)
  ∧ (∀ i, importeOk (pbaNormalize i).importe)
  ∧ (∀ c, importeOk (cabaCardNormalize c).importe)
  ∧ (∀ cols, importeOk (cabaServerRowNormalize cols).importe)
  ∧ (∀ cols, importeOk (santafeRowNormalize cols).importe)
  ∧ (∀ body cols, importeOk (posadasRowNormalize body cols).importe)
  ∧ (∀ cols, importeOk (corrientesRowNormalize cols).importe)
  ∧ (∀ i, importeOk (entreRiosNormalize i).importe)
  ∧ (∀ i, importeOk (misionesNormalize i).importe)
  ∧ (∀ i, importeOk (chacoFotoNormalize i).importe)
  ∧ (∀ i, importeOk (chacoCamNormalize i).importe)
  ∧ (∀ cols, importeOk (rosarioRowNormalize cols).importe)
  ∧ (∀ i, importeOk (neuquenNormalize i).importe)
  ∧ (∀ cols, importeOk (santaRosaRowNormalize cols).importe)
  ∧ (∀ cols, importeOk (mendozaRowNormalize cols).importe)
  ∧ (∀ t i, importeOk (camSdtNormalize t i).importe)
  ∧ (∀ t i, importeOk (camObjNormalize t i).importe)
  ∧ (∀ i, importeOk (camHiddenNormalize i).importe)
  ∧ (∀ f i, importeOk (saltaNormalize f i).importe)
  ∧ (∀ r t ob, importeOk (cordobaNormalize r t ob).importe) :=
  ⟨fun _ => numOrNull_spec _, fun _ => numOrNull_spec _, fun _ => numOrNull_spec _,
   fun _ => numOrNull_spec _, fun _ => numOrNull_spec _, fun _ => numOrNull_spec _,
   fun _ _ => numOrNull_spec _, fun _ => numOrNull_spec _, fun _ => numOrNull_spec _,
   fun _ => numOrNull_spec _, fun _ => numOrNull_spec _, fun _ => numOrNull_spec _,
   fun _ => numOrNull_spec _, fun _ => numOrNull_spec _, fun _ => numOrNull_spec _,
   fun _ => numOrNull_spec _, fun _ _ => numOrNull_spec _, fun _ _ => numOrNull_spec _,
   fun _ => numOrNull_spec _, fun _ _ => numOrNull_spec _, fun _ _ _ => numOrNull_spec _⟩

/-! ## Claim C6 -/

/-- Claim C6 (confirmed): the dispatcher maps each known source identifier to
exactly one adapter, and any identifier outside the known set — "__unknown__" in
particular — falls back to the national ANSV adapter, producing the same adapter
selection as the literal "ansv".  Both the backend-server.js switch and the
server.js switch behave this way. -/
theorem claim6_dispatcher_fallback :
    selectAdapter "__unknown__" = AdapterId.ansv
  ∧ selectAdapter "ansv" = AdapterId.ansv
  ∧ selectAdapter "__unknown__" = selectAdapter "ansv"
  ∧ selectAdapter "pba" = AdapterId.pba
  ∧ selectAdapter "caba" = AdapterId.caba
  ∧ selectAdapter "santafe" = AdapterId.santafe
  ∧ selectAdapter "posadas" = AdapterId.posadas
  ∧ selectAdapter "corrientes" = AdapterId.corrientes
  ∧ selectAdapter "entrerios" = AdapterId.entrerios
  ∧ selectAdapter "misiones" = AdapterId.misiones
  ∧ selectAdapter "chaco" = AdapterId.chaco
  ∧ selectAdapter "rosario" = AdapterId.rosario
  ∧ selectAdapter "neuquen" = AdapterId.neuquen
  ∧ selectAdapter "santarosa" = AdapterId.santarosa
  ∧ selectAdapter "mendoza" = AdapterId.mendoza
  ∧ selectAdapter "cordoba" = AdapterId.cordoba
  ∧ selectAdapter "mendozacaminera" = AdapterId.mendozacaminera
  ∧ selectAdapter "salta" = AdapterId.salta
  ∧ selectAdapterServer "__unknown__" = AdapterId.ansv
  ∧ selectAdapterServer "ansv" = AdapterId.ansv
  ∧ selectAdapterServer "pba" = AdapterId.pba
  ∧ selectAdapterServer "caba" = AdapterId.caba
  ∧ selectAdapterServer "santafe" = AdapterId.santafe := by
  decide

/-! ## Claim C5 -/

/-- Claim C5 (confirmed): any failure thrown inside the invoked adapter is
caught at the route's dispatch boundary and surfaced as the single 502 error
envelope `Error al consultar fuente: message`, which names the originating
source identifier together with the underlying reason; `handleMultas` is total,
so no adapter failure escapes it. -/
theorem claim5_failure_envelope
    (run : AdapterId → String → Except String (List ViolationRecord))
    (dominio fuente msg : String)
    (hdom : dominio ≠ "")
    (hfmt : (isOldFormat (cleanDominio dominio) || isMercFormat (cleanDominio dominio)) = true)
    (hrun : run (selectAdapter fuente) (cleanDominio dominio) = Except.error msg) :
    handleMultas run (some dominio) (some fuente)
      = RouteResponse.badGateway ("Error al consultar " ++ fuente ++ ": " ++ msg) := by
  unfold handleMultas
  simp [hdom, hfmt, hrun]

/-- Witness for claim C5 at a concrete failing adapter. -/
theorem claim5_witness :
    handleMultas (fun _ _ => Except.error "fallo upstream") (some "ABC123") (some "rosario")
      = RouteResponse.badGateway "Error al consultar rosario: fallo upstream" :=
  claim5_failure_envelope (fun _ _ => Except.error "fallo upstream") "ABC123" "rosario"
    "fallo upstream" (by decide) (by decide) rfl

/-! ## Claim C1 -/

/-- Counterexample to claim C1: the claim says every adapter treats a remaining
comma as the decimal separator after removing dots, so that "$1.234,56" parses
to 1234.56 identically in every adapter.  On the cell text "$1.234,56" the ANSV
row normalizer (regex `[^0-9.]`, which deletes the comma) produces 1.23456, the
Rosario row normalizer (regex `[^0-9.,]` plus first-comma-to-dot) produces
1.234, and the two differ — neither is 1234.56. -/
theorem claim1_counterexample :
    (ansvRowNormalize ["a", "f", "d", "l", "$1.234,56", "", ""]).importe
        = some ((123456 : ℚ) / 100000)
  ∧ (rosarioRowNormalize ["a", "f", "d", "l", "$1.234,56", ""]).importe
        = some ((1234 : ℚ) / 1000)
  ∧ (ansvRowNormalize ["a", "f", "d", "l", "$1.234,56", "", ""]).importe
        ≠ some (1234.56 : ℚ)
  ∧ (rosarioRowNormalize ["a", "f", "d", "l", "$1.234,56", ""]).importe
        ≠ some (1234.56 : ℚ)
  ∧ (ansvRowNormalize ["a", "f", "d", "l", "$1.234,56", "", ""]).importe
        ≠ (rosarioRowNormalize ["a", "f", "d", "l", "$1.234,56", ""]).importe := by
  refine ⟨?_, ?_, ?_, ?_, ?_⟩ <;>
    (simp +decide [ansvRowNormalize, rosarioRowNormalize, importeStripDot,
      importeStripDotComma, stripKeepDigitsDot, stripKeepDigitsDotComma,
      replaceFirstCommaS, replaceFirstComma, parseFloatQ, parseDigits, parseExpPart,
      parseExpDigits, natOfDigits, fracOfDigits, numOrNull, colD, colOrNull, strOrNull]
     norm_num)

/-- Claim C1 as amended: monetary normalization is family-specific, not shared.
The table adapters embedding `importeStripDot` strip every character that is not
a digit or dot (commas are deleted, never decimal separators); the adapters
embedding `importeStripDotComma` strip every character that is not a digit, dot
or comma and then replace only the first comma with a dot; the JSON adapters
(`importeRaw`) parse the raw upstream value.  In every family "1234.56" parses
to 1234.56 and "" or non-numeric text yields null, but "$1.234,56" yields
1.23456 under the first family, 1.234 under the second and null under the
third. -/
theorem claim1_monetary_families :
    importeStripDot "1234.56" = some (1234.56 : ℚ)
  ∧ importeStripDotComma "1234.56" = some (1234.56 : ℚ)
  ∧ importeRaw "1234.56" = some (1234.56 : ℚ)
  ∧ importeStripDot "" = none
  ∧ importeStripDotComma "" = none
  ∧ importeRaw "" = none
  ∧ importeStripDot "sin datos" = none
  ∧ importeStripDotComma "sin datos" = none
  ∧ importeRaw "sin datos" = none
  ∧ importeStripDot "$1.234,56" = some ((123456 : ℚ) / 100000)
  ∧ importeStripDotComma "$1.234,56" = some ((1234 : ℚ) / 1000)
  ∧ importeRaw "$1.234,56" = none := by
  refine ⟨?_, ?_, ?_, ?_, ?_, ?_, ?_, ?_, ?_, ?_, ?_, ?_⟩ <;>
    (simp +decide [importeStripDot, importeStripDotComma, importeRaw,
      stripKeepDigitsDot, stripKeepDigitsDotComma, replaceFirstCommaS,
      replaceFirstComma, parseFloatQ, parseDigits, parseExpPart, parseExpDigits,
      natOfDigits, fracOfDigits, numOrNull]
     try norm_num)

/-! ## Claim C2 -/

/-- Counterexample to claim C2: the claim says every produced record's estado is
exactly pagada or pendiente, pagada iff the source status contains a
case-insensitive "pag".  The ANSV JSON fallback (backend-server.js line 145,
server.js line 88) instead stores the lowercased upstream status verbatim: for
an item whose estado field is "Impaga" — which does contain "pag", so the claim
demands "pagada" — the produced estado is "impaga", outside the enum. -/
theorem claim2_counterexample :
    (ansvJsonNormalize
        ⟨none, none, none, none, none, none, none, none, none, some "Impaga", none⟩).estado
        = "impaga"
  ∧ containsPag "Impaga" = true
  ∧ (ansvJsonNormalize
        ⟨none, none, none, none, none, none, none, none, none, some "Impaga", none⟩).estado
        ≠ "pagada"
  ∧ (ansvJsonNormalize
        ⟨none, none, none, none, none, none, none, none, none, some "Impaga", none⟩).estado
        ≠ "pendiente" := by
  decide

/-- Claim C2 as amended: every normalizer of the two server files except the
ANSV JSON fallback produces an estado in the enum, pagada exactly when its
source status text contains a case-insensitive "pag" (adapters whose source has
no status field use the constant pendiente, which follows the policy over the
empty status text); the ANSV JSON fallback instead passes through the lowercased
upstream status — it still defaults to "pendiente" when the field is absent, but
an arbitrary upstream status escapes the enum. -/
theorem claim2_estado_policy :
    (∀ i : AnsvJsonItem, i.estado = none → (ansvJsonNormalize i).estado = "pendiente")
  ∧ (∀ i : AnsvJsonItem,
      (ansvJsonNormalize i).estado = jsToLowerCase (jsChainD [i.estado] "pendiente"))
  ∧ (∀ cols, estadoFollowsPolicy (ansvRowNormalize cols).estado (colD cols 5))
  ∧ (∀ i, estadoFollowsPolicy (pbaNormalize i).estado (jsChainD [i.estado] "pendiente"))
  ∧ (∀ c, estadoFollowsPolicy (cabaCardNormalize c).estado c.cardText)
  ∧ (∀ cols, estadoFollowsPolicy (cabaServerRowNormalize cols).estado "")
  ∧ (∀ cols, estadoFollowsPolicy (santafeRowNormalize cols).estado "")
  ∧ (∀ body cols, estadoFollowsPolicy (posadasRowNormalize body cols).estado body)
  ∧ (∀ cols, estadoFollowsPolicy (corrientesRowNormalize cols).estado (colD cols 5))
  ∧ (∀ i, estadoFollowsPolicy (entreRiosNormalize i).estado (jsChainD [i.estado] "pendiente"))
  ∧ (∀ i, estadoFollowsPolicy (misionesNormalize i).estado (jsChainD [i.estado] "pendiente"))
  ∧ (∀ i, estadoFollowsPolicy (chacoFotoNormalize i).estado (jsChainD [i.estado] "pendiente"))
  ∧ (∀ i, estadoFollowsPolicy (chacoCamNormalize i).estado (jsChainD [i.estado] "pendiente"))
  ∧ (∀ cols, estadoFollowsPolicy (rosarioRowNormalize cols).estado (colD cols 5))
  ∧ (∀ i, estadoFollowsPolicy (neuquenNormalize i).estado (jsChainD [i.estado] "pendiente"))
  ∧ (∀ cols, estadoFollowsPolicy (santaRosaRowNormalize cols).estado
      (jsChainD [some (colD cols 5), some (colD cols 3)] ""))
  ∧ (∀ cols, estadoFollowsPolicy (mendozaRowNormalize cols).estado (colD cols 14))
  ∧ (∀ t i, estadoFollowsPolicy (camSdtNormalize t i).estado (jsChainD [i.tipo] "pendiente"))
  ∧ (∀ t i, estadoFollowsPolicy (camObjNormalize t i).estado "")
  ∧ (∀ i, estadoFollowsPolicy (camHiddenNormalize i).estado "")
  ∧ (∀ f i, estadoFollowsPolicy (saltaNormalize f i).estado
      (jsChainD [i.estadoPlanPago, i.estado] "pendiente"))
  ∧ (∀ r t ob, estadoFollowsPolicy (cordobaNormalize r t ob).estado (jsChainD [ob.estado] "")) :=
  ⟨fun i h => by simp [ansvJsonNormalize, h, jsChainD]; decide,
   fun _ => rfl,
   fun cols => estado_policy_ite _,
   fun _ => estado_policy_ite _,
   fun _ => estado_policy_ite _,
   fun _ => estado_policy_pendiente,
   fun _ => estado_policy_pendiente,
   fun _ _ => estado_policy_ite _,
   fun _ => estado_policy_ite _,
   fun _ => estado_policy_ite _,
   fun _ => estado_policy_ite _,
   fun _ => estado_policy_ite _,
   fun _ => estado_policy_ite _,
   fun _ => estado_policy_ite _,
   fun _ => estado_policy_ite _,
   fun _ => estado_policy_ite _,
   fun _ => estado_policy_ite _,
   fun _ _ => estado_policy_ite _,
   fun _ _ => estado_policy_pendiente,
   fun _ => estado_policy_pendiente,
   fun _ _ => estado_policy_ite _,
   fun _ _ _ => estado_policy_ite _⟩

/-- Witness for claim C2's hypothesis at a concrete item with no status field. -/
theorem claim2_witness :
    (ansvJsonNormalize
        ⟨none, none, none, none, none, none, none, none, none, none, none⟩).estado
      = "pendiente" :=
  claim2_estado_policy.1 ⟨none, none, none, none, none, none, none, none, none, none, none⟩ rfl

/-! ## Claim C3 -/

/-- Counterexample to claim C3: the claim says any response body containing a
"no registra" sentinel yields the empty outcome with zero records, independent
of table markup in the same body.  fetchRosario checks its sentinel only after
row parsing and only when zero rows parsed, so a body carrying both the sentinel
and a parseable data row returns that row as a record, not the empty outcome. -/
theorem claim3_counterexample :
    rosarioParse "Si el dominio no registra deudas se muestra esta leyenda" false ""
        [["encabezado"], ["A1", "01/01/2020"]]
      = Except.ok [⟨some "A1", some "01/01/2020", none, none, none, "pendiente", "Rosario"⟩] :=
  rfl

/-- Claim C3 as amended: fetchPosadas tests its `/no registra/i` sentinel before
the row loop, so a sentinel body produces the empty outcome no matter what table
markup is also present; fetchRosario tests its sentinel after row parsing and
returns the empty outcome only when the rows parsed to zero records (with rows
present it returns those records — see the counterexample). -/
theorem claim3_sentinel (body errText : String) (rows : List (List String))
    (hs : hasSubstrCI "no registra" body = true) :
    posadasParse body rows = []
  ∧ (((rows.drop 1).filter (fun c => 2 ≤ c.length)) = [] →
      rosarioParse body false errText rows = Except.ok []) := by
  constructor
  · unfold posadasParse
    simp [hs]
  · intro hrows
    unfold rosarioParse
    rw [hrows]
    simp [hs]

/-- Witness for claim C3 on a concrete sentinel body that also carries table
markup. -/
theorem claim3_witness :
    posadasParse "NO REGISTRA Actas" [["encabezado"], ["A1", "01/01/2020"]] = []
  ∧ rosarioParse "NO REGISTRA Actas" false "" [["encabezado"]] = Except.ok [] := by
  have h := claim3_sentinel "NO REGISTRA Actas" "" [["encabezado"], ["A1", "01/01/2020"]]
    (by decide)
  have h2 := claim3_sentinel "NO REGISTRA Actas" "" [["encabezado"]] (by decide)
  exact ⟨h.1, h2.2 (by decide)⟩

/-! ## Claim C4 -/

/-- Counterexample to claim C4: the claim says the national ANSV adapter fails
with an unsupported-format error before issuing any network request for every
7-character Mercosur identifier.  The server.js variant of fetchANSV has no
format check at all: on "AB123CD" it issues its home-page request (request count
1, not 0) and fails with its reCAPTCHA message, not an unsupported-format
error. -/
theorem claim4_counterexample :
    fetchANSVServer "AB123CD" ⟨"<html><div class=g-recaptcha></div></html>", []⟩
      = (Except.error "El portal ANSV/SINAI requiere reCAPTCHA; no se puede consultar automáticamente desde este backend. Probá con fuente=pba/caba/santafe.", 1)
  ∧ (fetchANSVServer "AB123CD" ⟨"<html><div class=g-recaptcha></div></html>", []⟩).2 ≠ 0 :=
  ⟨rfl, by decide⟩

/-- Claim C4 as amended: in backend-server.js, fetchANSV rejects every
identifier that is not in the fixed 6-character layout — every Mercosur
identifier in particular — with the descriptive unsupported-format error before
issuing any request (count 0), and only 6-character identifiers proceed to the
network choreography (count at least 1); the server.js variant of fetchANSV
instead issues its home-page request unconditionally (count exactly 1 in every
outcome) and never raises an unsupported-format error. -/
theorem claim4_format_precondition (dominio : String) (env : AnsvNetEnv)
    (envS : ServerAnsvEnv) :
    (isMercFormat dominio = true →
        fetchANSVBackend dominio env = (Except.error ansvUnsupportedMsg, 0))
  ∧ (isOldFormat dominio = true → 1 ≤ (fetchANSVBackend dominio env).2)
  ∧ (fetchANSVServer dominio envS).2 = 1 := by
  refine ⟨?_, ?_, ?_⟩
  · intro hm
    have hlen7 : dominio.data.length = 7 := by
      unfold isMercFormat at hm
      split at hm
      · next heq => rw [heq]; rfl
      · cases hm
    have hold : isOldFormat dominio = false := by
      unfold isOldFormat
      split
      · next heq => rw [heq] at hlen7; cases hlen7
      · rfl
    unfold fetchANSVBackend
    simp [hold]
  · intro ho
    unfold fetchANSVBackend
    simp only [ho]
    cases matchSiteKey env.homeBody
    · simp
    · cases env.captchaOutcome <;> simp
  · simp only [fetchANSVServer]
    split
    · rfl
    · split <;> rfl

/-- Witness for claim C4 at concrete identifiers of each layout. -/
theorem claim4_witness :
    fetchANSVBackend "AB123CD" ⟨"", Except.ok "tok", [], "", none⟩
      = (Except.error ansvUnsupportedMsg, 0)
  ∧ 1 ≤ (fetchANSVBackend "ABC123" ⟨"", Except.ok "tok", [], "", none⟩).2
  ∧ (fetchANSVServer "AB123CD" ⟨"pagina", []⟩).2 = 1 :=
  ⟨(claim4_format_precondition "AB123CD" ⟨"", Except.ok "tok", [], "", none⟩
      ⟨"pagina", []⟩).1 (by decide),
   (claim4_format_precondition "ABC123" ⟨"", Except.ok "tok", [], "", none⟩
      ⟨"pagina", []⟩).2.1 (by decide),
   (claim4_format_precondition "AB123CD" ⟨"", Except.ok "tok", [], "", none⟩
      ⟨"pagina", []⟩).2.2⟩

/-! ## Claim C9 -/

/-- Claim C9 (code bug in server.js): the claim says that whenever the primary
table parse yields zero rows and the body contains a brace, the ANSV adapter
evaluates the secondary JSON-shape attempt without raising.  backend-server.js
does exactly that (see `ansvParsePhase`), but in server.js the fallback guard on
line 78 reads `res.data` while the only response in scope is named `home`, so on
a brace-carrying body with no recognizable table rows (and no reCAPTCHA marker)
the adapter raises `ReferenceError: res is not defined` instead of evaluating
the JSON attempt. -/
theorem claim9_server_fallback_raises :
    fetchANSVServer "ABC123" ⟨"\x7b\"infracciones\": []\x7d", []⟩
      = (Except.error "ReferenceError: res is not defined", 1)
  ∧ hasSubstr "\x7b" "\x7b\"infracciones\": []\x7d" = true
  ∧ ansvParsePhase [] "\x7b\"infracciones\": []\x7d" (some ⟨some [], none, none⟩) = [] :=
  ⟨rfl, rfl, rfl⟩

/-! ## Claim C7 -/

theorem le_gxPadLen (n : Nat) : n ≤ gxPadLen n := by
  unfold gxPadLen
  have h := Nat.div_add_mod (n + 15) 16
  have h2 : (n + 15) % 16 < 16 := Nat.mod_lt _ (by norm_num)
  omega

theorem dvd_gxPadLen (n : Nat) : 16 ∣ gxPadLen n := Dvd.intro _ (Nat.mul_comm _ _)

theorem gxPadLen_small (n : Nat) (h0 : n ≠ 0) (h16 : n ≤ 16) : gxPadLen n = 16 := by
  unfold gxPadLen
  omega

theorem gxPadLen_twenty : gxPadLen 20 = 32 := by decide

theorem range_map_getD (l : List Nat) (m : Nat) (h : l.length ≤ m) :
    (List.range m).map (fun i => l.getD i 0) = l ++ List.replicate (m - l.length) 0 := by
  induction l generalizing m with
  | nil =>
    simp [List.map_const']
  | cons a t ih =>
    cases m with
    | zero => cases h
    | succ m =>
      rw [List.range_succ_eq_map]
      simp only [List.map_cons, List.map_map]
      have hrec := ih m (by simpa using h)
      have hcomp : ((fun i => (a :: t).getD i 0) ∘ fun i => i + 1)
          = fun i => t.getD i 0 := by
        funext i
        simp [List.getD]
      rw [hcomp, hrec]
      simp [List.getD]

theorem gxPad_spec (bytes : List Nat) :
    gxPad bytes = bytes ++ List.replicate (gxPadLen bytes.length - bytes.length) 0 := by
  unfold gxPad
  exact range_map_getD bytes _ (le_gxPadLen _)

theorem gxPad_length (bytes : List Nat) : (gxPad bytes).length = gxPadLen bytes.length := by
  unfold gxPad
  simp

theorem chunksAux_flatten_len (E : List Nat → List Nat)
    (hE : ∀ b, b.length = 16 → (E b).length = 16) :
    ∀ fuel l, l.length ≤ fuel → 16 ∣ l.length →
      (((chunksAux fuel l).map E).flatten).length = l.length := by
  intro fuel
  induction fuel with
  | zero =>
    intro l hl _
    have : l = [] := List.eq_nil_of_length_eq_zero (Nat.le_zero.mp hl)
    subst this
    rfl
  | succ fuel ih =>
    intro l hl hdvd
    cases l with
    | nil => rfl
    | cons a t =>
      have hlc : (a :: t).length = t.length + 1 := rfl
      have hlen : 16 ≤ (a :: t).length := by
        rcases hdvd with ⟨k, hk⟩
        have : k ≠ 0 := by
          intro h0
          rw [h0, Nat.mul_zero] at hk
          cases hk
        omega
      have htake : ((a :: t).take 16).length = 16 := by
        rw [List.length_take]
        omega
      have hdrop : ((a :: t).drop 16).length = (a :: t).length - 16 := by
        rw [List.length_drop]
      have hrec := ih ((a :: t).drop 16)
        (by rw [hdrop]; omega)
        (by rw [hdrop]; exact Nat.dvd_sub' hdvd (by norm_num))
      show ((chunksAux (fuel + 1) (a :: t)).map E).flatten.length = (a :: t).length
      rw [chunksAux]
      simp only [List.isEmpty_cons, Bool.false_eq_true, if_false, List.map_cons,
        List.flatten_cons, List.length_append]
      rw [hE _ htake, hrec, hdrop]
      omega

theorem toHexStr_length (bs : List Nat) : (toHexStr bs).length = 2 * bs.length := by
  unfold toHexStr
  show ((bs.map byteToHex).flatten).length = 2 * bs.length
  induction bs with
  | nil => rfl
  | cons b t ih =>
    simp only [List.map_cons, List.flatten_cons, List.length_append, List.length_cons, ih]
    rw [show (byteToHex b).length = 2 from rfl]
    omega

theorem asciiBytes_length (pt : String) : (asciiBytes pt).length = pt.length := by
  unfold asciiBytes
  rw [List.length_map]
  rfl

theorem gxEncrypt_length (E : List Nat → List Nat)
    (hE : ∀ b, b.length = 16 → (E b).length = 16) (pt : String) :
    (gxEncrypt E pt).length = 2 * gxPadLen pt.length := by
  unfold gxEncrypt ecbEncrypt chunks16
  rw [toHexStr_length]
  rw [chunksAux_flatten_len E hE _ _ (Nat.le_refl _)
    (by rw [gxPad_length]; exact dvd_gxPadLen _)]
  rw [gxPad_length, asciiBytes_length]

/-- Counterexample to claim C7: the claim says every plaintext shorter than one
block is zero-padded to exactly 16 bytes.  The empty plaintext is shorter than
one block, yet `Math.ceil(0/16)*16 = 0`, so gxEncrypt pads it to 0 bytes and
produces the empty ciphertext. -/
theorem claim7_counterexample :
    (asciiBytes "").length = 0
  ∧ (asciiBytes "").length < 16
  ∧ (gxPad (asciiBytes "")).length = 0
  ∧ (gxPad (asciiBytes "")).length ≠ 16
  ∧ gxEncrypt (fun b => b) "" = "" := by
  refine ⟨rfl, by decide, rfl, by decide, rfl⟩

/-- Claim C7 as amended: gxEncrypt zero-pads the plaintext bytes to the next
16-byte boundary and encrypts them block by block in ECB mode (no chaining, no
IV — `E` is the external AES-128 block permutation, assumed only to map 16-byte
blocks to 16-byte blocks); every nonempty plaintext of at most one block is
padded to exactly 16 bytes, a 20-byte plaintext is padded to 32 bytes, and the
ciphertext byte length (half the hex length) is always a multiple of 16 — but
the empty plaintext is padded to 0 bytes, not 16. -/
theorem claim7_codec_padding (E : List Nat → List Nat)
    (hE : ∀ b, b.length = 16 → (E b).length = 16) (pt : String) :
    gxPad (asciiBytes pt)
        = asciiBytes pt ++ List.replicate (gxPadLen pt.length - pt.length) 0
  ∧ (pt.length ≠ 0 → pt.length ≤ 16 → (gxPad (asciiBytes pt)).length = 16)
  ∧ (pt.length = 20 → (gxPad (asciiBytes pt)).length = 32)
  ∧ (gxEncrypt E pt).length = 2 * gxPadLen pt.length
  ∧ 16 ∣ (gxEncrypt E pt).length / 2 := by
  have hab : (asciiBytes pt).length = pt.length := asciiBytes_length pt
  refine ⟨?_, ?_, ?_, ?_, ?_⟩
  · rw [gxPad_spec, hab]
  · intro h0 h16
    rw [gxPad_length, hab]
    exact gxPadLen_small _ h0 h16
  · intro h20
    rw [gxPad_length, hab, h20]
    exact gxPadLen_twenty
  · exact gxEncrypt_length E hE pt
  · rw [gxEncrypt_length E hE pt]
    rw [Nat.mul_div_cancel_left _ (by norm_num : 0 < 2)]
    exact dvd_gxPadLen _

/-- Witness for claim C7 at the identity block map and the plaintext the source
actually encrypts. -/
theorem claim7_witness :
    (gxPad (asciiBytes "gxfullajaxEvt")).length = 16
  ∧ (gxEncrypt (fun b => b) "gxfullajaxEvt").length = 2 * gxPadLen 13
  ∧ 16 ∣ (gxEncrypt (fun b => b) "gxfullajaxEvt").length / 2 :=
  ⟨(claim7_codec_padding (fun b => b) (fun _ h => h) "gxfullajaxEvt").2.1
      (by decide) (by decide),
   (claim7_codec_padding (fun b => b) (fun _ h => h) "gxfullajaxEvt").2.2.2.1,
   (claim7_codec_padding (fun b => b) (fun _ h => h) "gxfullajaxEvt").2.2.2.2⟩

/-! ## Claim C8 -/

/-- Counterexample to claim C8: the claim says a missing optional field is
represented as null and never as the empty string in every adapter.  fetchSalta
computes `acta: String(i.numeroObligacionImpuesto || i.acta || '')`, so for an
item carrying neither field the produced acta is the empty string, not null. -/
theorem claim8_counterexample :
    (saltaNormalize (fun s => s)
        ⟨none, none, none, none, none, none, none, none, none, none, none, none⟩).acta
      = some "" := rfl

/-- Claim C8 as amended: in every record produced by the normalizers of the two
server files, a missing optional field is null and never the empty string, and
jurisdiccion is never empty — with one exception forced by the code: fetchSalta
always wraps acta in `String(...)`, so its acta is a string equal to the
upstream chain with an empty-string default (empty exactly when both source
fields are absent; see the counterexample).  For fetchSalta's date the external
`new Date(...).toISOString().slice(0,10)` rendering is assumed to produce
nonempty text, which it always does when it does not throw. -/
theorem claim8_null_never_empty :
    (∀ (f : String → String) (i : SaltaItem), (∀ s, f s ≠ "") →
        recordNoEmptyButActa (saltaNormalize f i))
  ∧ (∀ (f : String → String) (i : SaltaItem),
        (saltaNormalize f i).acta = some (jsChainD [i.numeroObligacionImpuesto, i.acta] ""))
  ∧ (∀ cols, recordNoEmpty (ansvRowNormalize cols))
  ∧ (∀ i, recordNoEmpty (ansvJsonNormalize i))
  ∧ (∀ i, recordNoEmpty (pbaNormalize i))
  ∧ (∀ c, recordNoEmpty (cabaCardNormalize c))
  ∧ (∀ cols, recordNoEmpty (cabaServerRowNormalize cols))
  ∧ (∀ cols, recordNoEmpty (santafeRowNormalize cols))
  ∧ (∀ body cols, recordNoEmpty (posadasRowNormalize body cols))
  ∧ (∀ cols, recordNoEmpty (corrientesRowNormalize cols))
  ∧ (∀ i, recordNoEmpty (entreRiosNormalize i))
  ∧ (∀ i, recordNoEmpty (misionesNormalize i))
  ∧ (∀ i, recordNoEmpty (chacoFotoNormalize i))
  ∧ (∀ i, recordNoEmpty (chacoCamNormalize i))
  ∧ (∀ cols, recordNoEmpty (rosarioRowNormalize cols))
  ∧ (∀ i, recordNoEmpty (neuquenNormalize i))
  ∧ (∀ cols, recordNoEmpty (santaRosaRowNormalize cols))
  ∧ (∀ cols, recordNoEmpty (mendozaRowNormalize cols))
  ∧ (∀ t i, recordNoEmpty (camSdtNormalize t i))
  ∧ (∀ t i, recordNoEmpty (camObjNormalize t i))
  ∧ (∀ i, recordNoEmpty (camHiddenNormalize i))
  ∧ (∀ r t ob, recordNoEmpty (cordobaNormalize r t ob)) := by
  refine ⟨?_, fun _ _ => rfl, ?_, ?_, ?_, ?_, ?_, ?_, ?_, ?_, ?_, ?_, ?_, ?_, ?_, ?_,
    ?_, ?_, ?_, ?_, ?_, ?_⟩
  · intro f i hf
    refine ⟨?_, strOrNull_ne _, strOrNull_ne _, append_ne_empty _ _ (by decide)⟩
    cases hfi : i.fechaInfraccion with
    | none => simp [saltaNormalize, hfi]
    | some s =>
      by_cases h : s = ""
      · simp [saltaNormalize, hfi, h]
      · simp [saltaNormalize, hfi, h, hf s]
  · exact fun cols => ⟨colOrNull_ne _ _, colOrNull_ne _ _, colOrNull_ne _ _,
      colOrNull_ne _ _, jsChainD_ne _ _ (by decide)⟩
  · exact fun i => ⟨jsChainOrNull_ne _, jsChainOrNull_ne _, jsChainOrNull_ne _,
      jsChainOrNull_ne _, jsChainD_ne _ _ (by decide)⟩
  · exact fun i => ⟨jsChainOrNull_ne _, jsChainOrNull_ne _, jsChainOrNull_ne _,
      jsChainOrNull_ne _, jsChainD_ne _ _ (by decide)⟩
  · exact fun c => ⟨jsChainOrNull_ne _, strOrNull_ne _, strOrNull_ne _,
      strOrNull_ne _, (show ("CABA" : String) ≠ "" by decide)⟩
  · exact fun cols => ⟨colOrNull_ne _ _, colOrNull_ne _ _, colOrNull_ne _ _,
      colOrNull_ne _ _, (show ("CABA" : String) ≠ "" by decide)⟩
  · exact fun cols => ⟨colOrNull_ne _ _, colOrNull_ne _ _, colOrNull_ne _ _,
      colOrNull_ne _ _, (show ("Santa Fe" : String) ≠ "" by decide)⟩
  · exact fun body cols => ⟨colOrNull_ne _ _, colOrNull_ne _ _, colOrNull_ne _ _,
      colOrNull_ne _ _, (show ("Municipio de Posadas" : String) ≠ "" by decide)⟩
  · exact fun cols => ⟨colOrNull_ne _ _, colOrNull_ne _ _, colOrNull_ne _ _,
      colOrNull_ne _ _, (show ("Corrientes" : String) ≠ "" by decide)⟩
  · exact fun i => ⟨jsChainOrNull_ne _, jsChainOrNull_ne _, jsChainOrNull_ne _,
      jsChainOrNull_ne _, jsChainD_ne _ _ (by decide)⟩
  · exact fun i => ⟨jsChainOrNull_ne _, jsChainOrNull_ne _, jsChainOrNull_ne _,
      jsChainOrNull_ne _, jsChainD_ne _ _ (by decide)⟩
  · exact fun i => ⟨jsChainOrNull_ne _, jsChainOrNull_ne _, jsChainOrNull_ne _,
      jsChainOrNull_ne _, (show ("Chaco (Fotomulta)" : String) ≠ "" by decide)⟩
  · exact fun i => ⟨jsChainOrNull_ne _, jsChainOrNull_ne _, jsChainOrNull_ne _,
      none_ne_some_empty, (show ("Chaco (Caminera)" : String) ≠ "" by decide)⟩
  · exact fun cols => ⟨colOrNull_ne _ _, colOrNull_ne _ _, colOrNull_ne _ _,
      colOrNull_ne _ _, (show ("Rosario" : String) ≠ "" by decide)⟩
  · exact fun i => ⟨jsChainOrNull_ne _, jsChainOrNull_ne _, jsChainOrNull_ne _,
      jsChainOrNull_ne _, (show ("Neuquén Capital" : String) ≠ "" by decide)⟩
  · exact fun cols => ⟨colOrNull_ne _ _, colOrNull_ne _ _, colOrNull_ne _ _,
      colOrNull_ne _ _, (show ("Santa Rosa (La Pampa)" : String) ≠ "" by decide)⟩
  · exact fun cols => ⟨jsChainOrNull_ne _, colOrNull_ne _ _, colOrNull_ne _ _,
      none_ne_some_empty, (show ("Ciudad de Mendoza" : String) ≠ "" by decide)⟩
  · exact fun t i => ⟨jsChainOrNull_ne _, jsChainOrNull_ne _, strOrNull_ne _,
      none_ne_some_empty, append_ne_empty _ _ (by decide)⟩
  · exact fun t i => ⟨jsChainOrNull_ne _, jsChainOrNull_ne _, jsChainOrNull_ne _,
      none_ne_some_empty, append_ne_empty _ _ (by decide)⟩
  · exact fun i => ⟨jsChainOrNull_ne _, jsChainOrNull_ne _, jsChainOrNull_ne _,
      none_ne_some_empty, (show ("Mendoza Caminera" : String) ≠ "" by decide)⟩
  · exact fun r t ob => ⟨jsChainOrNull_ne _, jsChainOrNull_ne _, jsChainOrNull_ne _,
      none_ne_some_empty, append_ne_empty _ _ (by decide)⟩

/-- Witness for claim C8's hypotheses at a concrete nonempty date rendering and
an item with every field absent. -/
theorem claim8_witness :
    recordNoEmptyButActa
      (saltaNormalize (fun _ => "1970-01-01")
        ⟨none, none, none, none, none, none, none, none, none, none, none, none⟩) :=
  claim8_null_never_empty.1 (fun _ => "1970-01-01")
    ⟨none, none, none, none, none, none, none, none, none, none, none, none⟩
    (fun _ => (show ("1970-01-01" : String) ≠ "" by decide))

end DetectaMulta
